import Mathlib

/-!
# Verification of the trigger.dev run-engine core

This file gives a shallow embedding of the parts of the repository that the
verified claims are about:

* the `RunQueueShortKeyProducer` key constructors
  (packages/core, run-queue key producer);
* the `RunEngine` state machine (`trigger`, `#completeWaitpoint`,
  `#createExecutionSnapshot`, `#startHeartbeating`, `#handleStalledSnapshot`,
  `#continueRun`, `#enqueueRun`, the waitpoint constructors);
* the runner-side `ManagedRunController` phase machine
  (packages/cli-v3, `updateRunPhase` / `handleSnapshotChange`).

Database rows are modelled as lists of records inside an explicit engine
state; DB-generated opaque ids (cuids) are modelled as naturals drawn from a
monotone counter.  Fallible code returns `Except`.  Redis-backed collaborators
that are not part of the sources (the delayed-job worker, the run queue) are
modelled from the spec where noted.
-/

namespace TriggerDev

/-! ## Key producer (packages/core run-queue `RunQueueShortKeyProducer`) -/

inductive RuntimeEnvironmentType where
  | PRODUCTION
  | STAGING
  | DEVELOPMENT
  | PREVIEW
deriving DecidableEq, Repr

/-- The environment fields the key producer reads. -/
structure AuthenticatedEnvironment where
  organizationId : String
  projectId : String
  id : String
  type : RuntimeEnvironmentType
deriving DecidableEq, Repr

/-- JavaScript `Array.prototype.join(sep)`. -/
def joinParts (sep : String) : List String → String
  | [] => ""
  | [x] => x
  | x :: y :: ys => x ++ sep ++ joinParts sep (y :: ys)

def orgKeySection (orgId : String) : String := "org:" ++ orgId

def projKeySection (projId : String) : String := "proj:" ++ projId

def envTypeKeySection (t : RuntimeEnvironmentType) : String :=
  "envType:" ++ (if t = RuntimeEnvironmentType.DEVELOPMENT then "dev" else "deployed")

def envKeySection (envId : String) : String := "env:" ++ envId

def queueSection (queue : String) : String := "queue:" ++ queue

def concurrencyKeySection (ck : String) : String := "ck:" ++ ck

/-- `RunQueueShortKeyProducer.queueKey`.  The source appends the `ck` section
only when `concurrencyKey` is truthy, so an empty string behaves like an
absent key. -/
def queueKey (env : AuthenticatedEnvironment) (queue : String)
    (concurrencyKey : Option String := none) : String :=
  joinParts ":"
    ([orgKeySection env.organizationId,
      projKeySection env.projectId,
      envTypeKeySection env.type,
      envKeySection env.id,
      queueSection queue] ++
      (match concurrencyKey with
        | some ck => if ck = "" then [] else [concurrencyKeySection ck]
        | none => []))

/-- `RunQueueShortKeyProducer.queueConcurrencyLimitKey`. -/
def queueConcurrencyLimitKey (env : AuthenticatedEnvironment) (queue : String) : String :=
  joinParts ":" [queueKey env queue, "concurrency"]

/-- The characters the JavaScript regex `.` refuses to match: the ECMAScript
LineTerminator set (LF, CR, LINE SEPARATOR, PARAGRAPH SEPARATOR). -/
def isLineTerminator (c : Char) : Bool :=
  c = '\n' || c = '\r' || c = '\u2028' || c = '\u2029'

/-- Matches the regex `/:ck:.+$/` anchored at this position: the four
characters `:ck:` followed by at least one character, where `.` matches
anything except a line terminator and `$` (no `m` flag) asserts end of
input — so every remaining character must be a non-line-terminator. -/
def hasCkMatch (l : List Char) : Bool :=
  match l with
  | a :: b :: c :: d :: e :: rest =>
      a = ':' && b = 'c' && c = 'k' && d = ':' &&
      (e :: rest).all (fun ch => !isLineTerminator ch)
  | _ => false

/-- JavaScript `queue.replace(/:ck:.+$/, "")`: scan left to right and delete
everything from the first matching position to the end of the string (any
match of this pattern necessarily extends to the end of the input). -/
def stripCkSuffix : List Char → List Char
  | [] => []
  | c :: rest => if hasCkMatch (c :: rest) then [] else c :: stripCkSuffix rest

/-- `RunQueueShortKeyProducer.concurrencyLimitKeyFromQueue`. -/
def concurrencyLimitKeyFromQueue (queue : String) : String :=
  String.mk (stripCkSuffix queue.data) ++ ":concurrency"

/-- `RunQueueShortKeyProducer.currentConcurrencyKeyFromQueue` (for reference). -/
def currentConcurrencyKeyFromQueue (queue : String) : String :=
  queue ++ ":currentConcurrency"

/-! ### Supporting lemmas for the key producer -/

/-- A component string with no colon characters. -/
def noColonStr (s : String) : Prop := ∀ ch ∈ s.data, ch ≠ ':'

instance (s : String) : Decidable (noColonStr s) := by
  unfold noColonStr; infer_instance

/-- A component string with no ECMAScript line-terminator characters (which
the regex `.` cannot match). -/
def noLineTermStr (s : String) : Prop := ∀ ch ∈ s.data, isLineTerminator ch = false

instance (s : String) : Decidable (noLineTermStr s) := by
  unfold noLineTermStr; infer_instance

/-- No suffix of `l` starts with the four characters of a `ck` separator. -/
def NoCkAt (l : List Char) : Prop :=
  ∀ r, ¬ (':' :: 'c' :: 'k' :: ':' :: r) <:+ l

theorem str_data_append (s t : String) : (s ++ t).data = s.data ++ t.data := by
  cases s; cases t; rfl

theorem str_append_assoc (a b c : String) : a ++ b ++ c = a ++ (b ++ c) := by
  apply String.ext; simp [str_data_append]

theorem suffix_append_right {α : Type} {s a : List α} (t : List α) (h : s <:+ a) :
    s ++ t <:+ a ++ t := by
  obtain ⟨u, hu⟩ := h
  exact ⟨u, by rw [← List.append_assoc, hu]⟩

theorem suffix_append_cases {α : Type} {s a b : List α} (h : s <:+ a ++ b) :
    s <:+ b ∨ ∃ t, t <:+ a ∧ s = t ++ b := by
  induction a with
  | nil => exact Or.inl (by simpa using h)
  | cons x a ih =>
    rw [List.cons_append] at h
    rcases List.suffix_cons_iff.mp h with rfl | h2
    · exact Or.inr ⟨x :: a, List.suffix_refl _, by simp⟩
    · rcases ih h2 with hb | ⟨t, ht, rfl⟩
      · exact Or.inl hb
      · exact Or.inr ⟨t, ht.trans (List.suffix_cons x a), rfl⟩

/-- Scanning past a clean region: if no nonempty suffix of `A` begins a
`ck`-pattern match (taking the following `tail` into account), the scan
passes `A` unchanged. -/
theorem stripCkSuffix_append (A tail : List Char)
    (h : ∀ s, s ≠ [] → s <:+ A → hasCkMatch (s ++ tail) = false) :
    stripCkSuffix (A ++ tail) = A ++ stripCkSuffix tail := by
  induction A with
  | nil => simp
  | cons a A ih =>
    have h1 : hasCkMatch (a :: A ++ tail) = false :=
      h (a :: A) (by simp) (List.suffix_refl _)
    simp only [List.cons_append] at h1 ⊢
    rw [stripCkSuffix, h1]
    simp only [Bool.false_eq_true, if_false, List.cons.injEq, true_and]
    exact ih fun s hs hsuf => h s hs (hsuf.trans (List.suffix_cons a A))

theorem hasCkMatch_false_of_clean (A : List Char) (hclean : NoCkAt (A ++ [':']))
    (s : List Char) (hs : s <:+ A) : hasCkMatch s = false := by
  match s with
  | [] => rfl
  | [_] => rfl
  | [_, _] => rfl
  | [_, _, _] => rfl
  | [_, _, _, _] => rfl
  | a :: b :: c :: d :: e :: r =>
    by_contra hne
    rw [Bool.not_eq_false, hasCkMatch] at hne
    simp only [Bool.and_eq_true, decide_eq_true_eq] at hne
    obtain ⟨⟨⟨⟨ha, hb⟩, hc⟩, hd⟩, -⟩ := hne
    subst ha; subst hb; subst hc; subst hd
    have h2 : (':' :: 'c' :: 'k' :: ':' :: e :: r) ++ [':'] <:+ A ++ [':'] :=
      suffix_append_right [':'] hs
    simp only [List.cons_append] at h2
    exact hclean (e :: (r ++ [':'])) h2

theorem stripCkSuffix_eq_self (l : List Char)
    (h : ∀ s, s <:+ l → hasCkMatch s = false) : stripCkSuffix l = l := by
  induction l with
  | nil => rfl
  | cons c r ih =>
    rw [stripCkSuffix, h (c :: r) (List.suffix_refl _)]
    simp only [Bool.false_eq_true, if_false, List.cons.injEq, true_and]
    exact ih fun s hs => h s (hs.trans (List.suffix_cons c r))

/-- A nonempty suffix of a clean region never begins a `ck`-pattern match,
even with the real `ck` section appended after the region. -/
theorem hasCkMatch_append_false (A k : List Char) (hclean : NoCkAt (A ++ [':']))
    (s : List Char) (hsne : s ≠ []) (hs : s <:+ A) :
    hasCkMatch (s ++ (':' :: 'c' :: 'k' :: ':' :: k)) = false := by
  match s with
  | [] => exact absurd rfl hsne
  | [a] => simp [hasCkMatch]
  | [a, b] => simp [hasCkMatch]
  | [a, b, c] =>
    by_contra hne
    rw [Bool.not_eq_false] at hne
    simp only [List.cons_append, List.nil_append, hasCkMatch, Bool.and_eq_true,
      decide_eq_true_eq] at hne
    obtain ⟨⟨⟨⟨ha, hb⟩, hc⟩, -⟩, -⟩ := hne
    subst ha; subst hb; subst hc
    have h2 : ([':', 'c', 'k'] ++ [':']) <:+ A ++ [':'] :=
      suffix_append_right [':'] hs
    simp only [List.cons_append, List.nil_append] at h2
    exact hclean [] h2
  | a :: b :: c :: d :: s4 =>
    by_contra hne
    rw [Bool.not_eq_false] at hne
    simp only [List.cons_append, hasCkMatch] at hne
    rcases hrest : s4 ++ (':' :: 'c' :: 'k' :: ':' :: k) with _ | ⟨e, r⟩
    · simp at hrest
    · rw [hrest] at hne
      simp only [Bool.and_eq_true, decide_eq_true_eq] at hne
      obtain ⟨⟨⟨⟨ha, hb⟩, hc⟩, hd⟩, -⟩ := hne
      subst ha; subst hb; subst hc; subst hd
      have h2 : ((':' :: 'c' :: 'k' :: ':' :: s4) ++ [':']) <:+ A ++ [':'] :=
        suffix_append_right [':'] hs
      simp only [List.cons_append] at h2
      exact hclean (s4 ++ [':']) h2

/-- Colon-terminated blocks: `glue [w1, w2, ...] = w1 ++ ":" ++ w2 ++ ":" ++ ...`
with a colon after every word. -/
def glue : List (List Char) → List Char
  | [] => []
  | w :: ws => w ++ ':' :: glue ws

/-- A word list is clean when every word is colon-free and none spells `ck`. -/
def CleanWords (ws : List (List Char)) : Prop :=
  ∀ w ∈ ws, (∀ ch ∈ w, ch ≠ ':') ∧ w ≠ ['c', 'k']

theorem glue_no_ck_head (ws : List (List Char)) (h : CleanWords ws) (r : List Char) :
    glue ws ≠ 'c' :: 'k' :: ':' :: r := by
  match ws with
  | [] => simp [glue]
  | w :: ws2 =>
    obtain ⟨hw, hwck⟩ := h w (by simp)
    match w with
    | [] =>
      simp only [glue, List.nil_append]
      intro hEq
      injection hEq with h1 _
      exact absurd h1 (by decide)
    | [x] =>
      simp only [glue, List.cons_append, List.nil_append]
      intro hEq
      injection hEq with _ hEq2
      injection hEq2 with h2 _
      exact absurd h2 (by decide)
    | [x, y] =>
      simp only [glue, List.cons_append, List.nil_append]
      intro hEq
      injection hEq with h1 hEq2
      injection hEq2 with h2 _
      exact hwck (by rw [h1, h2])
    | x :: y :: z :: w4 =>
      simp only [glue, List.cons_append]
      intro hEq
      injection hEq with _ hEq2
      injection hEq2 with _ hEq3
      injection hEq3 with h3 _
      exact absurd h3 (hw z (by simp))

theorem glue_clean (ws : List (List Char)) (h : CleanWords ws) : NoCkAt (glue ws) := by
  induction ws with
  | nil =>
    intro r hs
    rw [glue, List.suffix_nil] at hs
    exact absurd hs (by simp)
  | cons w ws ih =>
    intro r hs
    have hcons := glue_no_ck_head ws (fun w2 hw2 => h w2 (by simp [hw2])) r
    rw [glue] at hs
    rcases suffix_append_cases hs with hsb | ⟨t, ht, hEq⟩
    · rcases List.suffix_cons_iff.mp hsb with hEq | hsb2
      · injection hEq with _ hEq2
        exact hcons hEq2.symm
      · exact ih (fun w2 hw2 => h w2 (by simp [hw2])) r hsb2
    · match t with
      | [] =>
        simp only [List.nil_append] at hEq
        injection hEq with _ hEq2
        exact hcons hEq2.symm
      | x :: t2 =>
        have hx : x ≠ ':' := (h w (by simp)).1 x (ht.subset (by simp))
        rw [List.cons_append] at hEq
        injection hEq with h1 _
        exact absurd h1.symm hx

/-- The colon-separated words of a queue key without a concurrency-key section. -/
def queueKeyWords (env : AuthenticatedEnvironment) (q : String) : List (List Char) :=
  [("org" : String).data, env.organizationId.data,
   ("proj" : String).data, env.projectId.data,
   ("envType" : String).data,
   (if env.type = RuntimeEnvironmentType.DEVELOPMENT then ("dev" : String)
    else ("deployed" : String)).data,
   ("env" : String).data, env.id.data,
   ("queue" : String).data, q.data]

theorem queueKey_none_data (env : AuthenticatedEnvironment) (q : String) :
    (queueKey env q none).data ++ [':'] = glue (queueKeyWords env q) := by
  simp only [queueKey, queueKeyWords, joinParts, orgKeySection, projKeySection,
    envTypeKeySection, envKeySection, queueSection, glue, List.append_nil,
    str_data_append,
    show ("org:" : String).data = ['o', 'r', 'g', ':'] from rfl,
    show ("proj:" : String).data = ['p', 'r', 'o', 'j', ':'] from rfl,
    show ("envType:" : String).data = ['e', 'n', 'v', 'T', 'y', 'p', 'e', ':'] from rfl,
    show ("env:" : String).data = ['e', 'n', 'v', ':'] from rfl,
    show ("queue:" : String).data = ['q', 'u', 'e', 'u', 'e', ':'] from rfl,
    show (":" : String).data = [':'] from rfl,
    show ("org" : String).data = ['o', 'r', 'g'] from rfl,
    show ("proj" : String).data = ['p', 'r', 'o', 'j'] from rfl,
    show ("envType" : String).data = ['e', 'n', 'v', 'T', 'y', 'p', 'e'] from rfl,
    show ("env" : String).data = ['e', 'n', 'v'] from rfl,
    show ("queue" : String).data = ['q', 'u', 'e', 'u', 'e'] from rfl,
    List.cons_append, List.nil_append, List.append_assoc]

theorem queueKeyWords_clean (env : AuthenticatedEnvironment) (q : String)
    (ho : noColonStr env.organizationId) (hp : noColonStr env.projectId)
    (he : noColonStr env.id) (hq : noColonStr q)
    (ho2 : env.organizationId ≠ "ck") (hp2 : env.projectId ≠ "ck")
    (he2 : env.id ≠ "ck") (hq2 : q ≠ "ck") :
    CleanWords (queueKeyWords env q) := by
  have hfield : ∀ x : String, noColonStr x → x ≠ "ck" →
      (∀ ch ∈ x.data, ch ≠ ':') ∧ x.data ≠ ['c', 'k'] := by
    intro x h1 h2
    exact ⟨h1, fun hEq => h2 (String.ext hEq)⟩
  intro w hw
  simp only [queueKeyWords, List.mem_cons, List.not_mem_nil, or_false] at hw
  rcases hw with rfl | rfl | rfl | rfl | rfl | rfl | rfl | rfl | rfl | rfl
  · exact ⟨by decide, by decide⟩
  · exact hfield _ ho ho2
  · exact ⟨by decide, by decide⟩
  · exact hfield _ hp hp2
  · exact ⟨by decide, by decide⟩
  · by_cases hdev : env.type = RuntimeEnvironmentType.DEVELOPMENT
    · rw [if_pos hdev]; exact ⟨by decide, by decide⟩
    · rw [if_neg hdev]; exact ⟨by decide, by decide⟩
  · exact ⟨by decide, by decide⟩
  · exact hfield _ he he2
  · exact ⟨by decide, by decide⟩
  · exact hfield _ hq hq2

theorem joinParts_concat (sep x y : String) (xs : List String) :
    joinParts sep (x :: xs ++ [y]) = joinParts sep (x :: xs) ++ sep ++ y := by
  induction xs generalizing x with
  | nil => simp [joinParts]
  | cons z zs ih =>
    show x ++ sep ++ joinParts sep (z :: (zs ++ [y])) =
      joinParts sep (x :: z :: zs) ++ sep ++ y
    rw [show z :: (zs ++ [y]) = z :: zs ++ [y] from rfl, ih z]
    apply String.ext
    simp [str_data_append, joinParts]

theorem queueKey_some_data (env : AuthenticatedEnvironment) (q k : String)
    (hk : k ≠ "") :
    (queueKey env q (some k)).data =
      (queueKey env q none).data ++ ':' :: 'c' :: 'k' :: ':' :: k.data := by
  simp only [queueKey]
  rw [if_neg hk]
  rw [show [orgKeySection env.organizationId, projKeySection env.projectId,
        envTypeKeySection env.type, envKeySection env.id, queueSection q] ++
        [concurrencyKeySection k] =
      orgKeySection env.organizationId :: [projKeySection env.projectId,
        envTypeKeySection env.type, envKeySection env.id, queueSection q] ++
        [concurrencyKeySection k] from rfl]
  rw [joinParts_concat]
  simp [str_data_append, concurrencyKeySection,
    show (":" : String).data = [':'] from rfl,
    show ("ck:" : String).data = ['c', 'k', ':'] from rfl]

theorem stripCkSuffix_queueKey (env : AuthenticatedEnvironment) (q : String)
    (ck : Option String)
    (ho : noColonStr env.organizationId) (hp : noColonStr env.projectId)
    (he : noColonStr env.id) (hq : noColonStr q)
    (hterm : ∀ k, ck = some k → noLineTermStr k)
    (ho2 : env.organizationId ≠ "ck") (hp2 : env.projectId ≠ "ck")
    (he2 : env.id ≠ "ck") (hq2 : q ≠ "ck") :
    stripCkSuffix (queueKey env q ck).data = (queueKey env q none).data := by
  have hclean : NoCkAt ((queueKey env q none).data ++ [':']) := by
    rw [queueKey_none_data]
    exact glue_clean _ (queueKeyWords_clean env q ho hp he hq ho2 hp2 he2 hq2)
  have hself : stripCkSuffix (queueKey env q none).data = (queueKey env q none).data :=
    stripCkSuffix_eq_self _ fun s hs => hasCkMatch_false_of_clean _ hclean s hs
  match ck with
  | none => exact hself
  | some k =>
    by_cases hk : k = ""
    · rw [show queueKey env q (some k) = queueKey env q none by
        rw [queueKey, queueKey, hk]; rfl]
      exact hself
    · rw [queueKey_some_data env q k hk]
      rw [stripCkSuffix_append _ _
        fun s hsne hs => hasCkMatch_append_false _ k.data hclean s hsne hs]
      have hkdata : k.data ≠ [] := fun h => hk (String.ext h)
      rcases hkd : k.data with _ | ⟨c0, r⟩
      · exact absurd hkd hkdata
      · have hall : ((c0 :: r).all fun ch => !isLineTerminator ch) = true := by
          rw [List.all_eq_true]
          intro ch hch
          have hmem : ch ∈ k.data := by rw [hkd]; exact hch
          simp [hterm k rfl ch hmem]
        have hmatch : hasCkMatch (':' :: 'c' :: 'k' :: ':' :: c0 :: r) = true := by
          simp [hasCkMatch, hall]
        have hstrip : stripCkSuffix (':' :: 'c' :: 'k' :: ':' :: c0 :: r) = [] := by
          rw [stripCkSuffix, hmatch]
          simp
        rw [hstrip, List.append_nil]

/-- C8: deriving the concurrency-limit key from a produced queue key agrees
with constructing it directly, for colon-free components.  This is FALSE as
stated: the regex strips from the leftmost occurrence of the separator, so a
component that itself spells `ck` (here the organization id) breaks the
identity even though every component is colon-free. -/
theorem claim_C8_keyDerivation_counterexample :
    (noColonStr "ck" ∧ noColonStr "p" ∧ noColonStr "e" ∧ noColonStr "q" ∧
      noColonStr "k") ∧
    concurrencyLimitKeyFromQueue
        (queueKey ⟨"ck", "p", "e", RuntimeEnvironmentType.PRODUCTION⟩ "q" (some "k")) ≠
      queueConcurrencyLimitKey ⟨"ck", "p", "e", RuntimeEnvironmentType.PRODUCTION⟩ "q" := by
  exact ⟨⟨by decide, by decide, by decide, by decide, by decide⟩, by decide⟩

/-- C8 (amended): for every environment, queue name and optional concurrency
key whose components contain no colon, none of which is the two-character
string `ck`, and whose concurrency key contains no line-terminator character
(otherwise the regex `.+$` cannot reach the end of input and nothing is
stripped), deriving the concurrency-limit key from the produced queue key
equals constructing the queue concurrency-limit key directly. -/
theorem claim_C8_keyDerivation (env : AuthenticatedEnvironment) (q : String)
    (ck : Option String)
    (ho : noColonStr env.organizationId) (hp : noColonStr env.projectId)
    (he : noColonStr env.id) (hq : noColonStr q)
    (_hck : ∀ k, ck = some k → noColonStr k)
    (hterm : ∀ k, ck = some k → noLineTermStr k)
    (ho2 : env.organizationId ≠ "ck") (hp2 : env.projectId ≠ "ck")
    (he2 : env.id ≠ "ck") (hq2 : q ≠ "ck") :
    concurrencyLimitKeyFromQueue (queueKey env q ck) = queueConcurrencyLimitKey env q := by
  apply String.ext
  rw [concurrencyLimitKeyFromQueue, queueConcurrencyLimitKey]
  rw [show joinParts ":" [queueKey env q none, "concurrency"] =
    queueKey env q none ++ ":" ++ "concurrency" from rfl]
  simp only [str_data_append]
  rw [stripCkSuffix_queueKey env q ck ho hp he hq hterm ho2 hp2 he2 hq2]
  simp

/-- Witness for C8 at a concrete colon-free input. -/
theorem claim_C8_keyDerivation_witness :
    concurrencyLimitKeyFromQueue
        (queueKey ⟨"o", "p", "e", RuntimeEnvironmentType.PRODUCTION⟩ "q" (some "k")) =
      queueConcurrencyLimitKey ⟨"o", "p", "e", RuntimeEnvironmentType.PRODUCTION⟩ "q" :=
  claim_C8_keyDerivation _ _ _ (by decide) (by decide) (by decide) (by decide)
    (by intro k hk; cases hk; decide) (by intro k hk; cases hk; decide)
    (by decide) (by decide) (by decide) (by decide)

/-! ## Run-engine data model (internal/run-engine `RunEngine`)

Database rows are lists of records; DB-generated opaque ids (cuids) are
naturals drawn from the monotone `nextId` counter, which also stands in for
row-creation timestamps (the engine only ever reads their relative order).
-/

inductive TaskRunStatus where
  | PENDING
  | DELAYED
  | EXECUTING
  | WAITING_TO_RESUME
  | COMPLETED_SUCCESSFULLY
  | COMPLETED_WITH_ERRORS
  | SYSTEM_FAILURE
  | CRASHED
  | EXPIRED
  | CANCELED
deriving DecidableEq, Repr

/-- The execution statuses of the V2 engine.  The `assertNever` default arm of
`RunEngine.#handleStalledSnapshot` type-checks against exactly these six
members, fixing the `TaskRunExecutionStatus` enum of this source version. -/
inductive TaskRunExecutionStatus where
  | RUN_CREATED
  | QUEUED
  | DEQUEUED_FOR_EXECUTION
  | EXECUTING
  | BLOCKED_BY_WAITPOINTS
  | FINISHED
deriving DecidableEq, Repr

inductive WaitpointType where
  | RUN
  | DATETIME
  | MANUAL
deriving DecidableEq, Repr

inductive WaitpointStatus where
  | PENDING
  | COMPLETED
deriving DecidableEq, Repr

inductive TaskQueueType where
  | NAMED
  | VIRTUAL
deriving DecidableEq, Repr

/-- `MinimalAuthenticatedEnvironment` with the nested organization/project
records flattened to their ids. -/
structure MinimalEnvironment where
  id : String
  type : RuntimeEnvironmentType
  organizationId : String
  projectId : String
  maximumConcurrencyLimit : Nat
deriving DecidableEq, Repr

structure TaskRun where
  id : Nat
  friendlyId : String
  number : Nat
  status : TaskRunStatus
  runtimeEnvironmentId : String
  projectId : String
  idempotencyKey : Option String
  taskIdentifier : String
  payload : String
  payloadType : String
  concurrencyKey : Option String
  queue : String
  masterQueue : String
  isTest : Bool
  delayUntil : Option Nat
  queuedAt : Option Nat
  maxAttempts : Option Nat
  ttl : Option String
  parentTaskRunId : Option Nat
  resumeParentOnCompletion : Bool
  depth : Nat
deriving DecidableEq, Repr

structure ExecutionSnapshot where
  id : Nat
  runId : Nat
  engine : String
  executionStatus : TaskRunExecutionStatus
  description : String
  runStatus : TaskRunStatus
  createdAt : Nat
  workerId : Option String
deriving DecidableEq, Repr

structure Waitpoint where
  id : Nat
  type : WaitpointType
  status : WaitpointStatus
  idempotencyKey : String
  userProvidedIdempotencyKey : Bool
  projectId : String
  completedByTaskRunId : Option Nat
  completedAfter : Option Nat
deriving DecidableEq, Repr

structure TaskRunWaitpoint where
  taskRunId : Nat
  waitpointId : Nat
  projectId : String
deriving DecidableEq, Repr

structure TaskQueue where
  id : Nat
  friendlyId : String
  name : String
  concurrencyLimit : Option Nat
  runtimeEnvironmentId : String
  projectId : String
  rateLimit : Option Nat
  type : TaskQueueType
deriving DecidableEq, Repr

/-- The three delayed-job kinds of the engine's worker catalog. -/
inductive WorkerJobPayload where
  | waitpointCompleteDateTime (waitpointId : Nat)
  | heartbeatSnapshot (runId : Nat) (snapshotId : Nat)
  | expireRun (runId : Nat)
deriving DecidableEq, Repr

structure WorkerJob where
  id : Option String
  payload : WorkerJobPayload
  availableAt : Option Nat
deriving DecidableEq, Repr

/-- A run-queue message as built by `#enqueueRun` / `#continueRun`. -/
structure QueueMessage where
  runId : Nat
  taskIdentifier : String
  orgId : String
  projectId : String
  environmentId : String
  environmentType : RuntimeEnvironmentType
  queue : String
  concurrencyKey : Option String
  timestamp : Nat
deriving DecidableEq, Repr

/-- The engine-visible state: DB tables, the delayed-job worker queue, the
run queue, plus `continuedRunIds`, a pure observation log recording each
invocation of `#continueRun` (it feeds no computation). -/
structure EngineState where
  now : Nat
  nextId : Nat
  runs : List TaskRun
  snapshots : List ExecutionSnapshot
  waitpoints : List Waitpoint
  runWaitpoints : List TaskRunWaitpoint
  taskQueues : List TaskQueue
  workerJobs : List WorkerJob
  queueMessages : List (String × QueueMessage)
  queueConcurrencyLimits : List (String × String × Nat)
  envs : List MinimalEnvironment
  continuedRunIds : List Nat
deriving DecidableEq, Repr

inductive EngineError where
  | notImplemented (message : String)
  | err (message : String)
deriving DecidableEq, Repr

/-- Engine computations: explicit state passing with `Except` for thrown
errors.  Throwing keeps the state reached so far (the source only rolls back
inside an explicit DB transaction). -/
def EngineM (α : Type) : Type := EngineState → Except EngineError α × EngineState

def EngineM.pure {α : Type} (a : α) : EngineM α := fun s => (Except.ok a, s)

def EngineM.bind {α β : Type} (m : EngineM α) (f : α → EngineM β) : EngineM β := fun s =>
  match m s with
  | (Except.ok a, s2) => f a s2
  | (Except.error e, s2) => (Except.error e, s2)

instance : Monad EngineM where
  pure := EngineM.pure
  bind := EngineM.bind

def getS : EngineM EngineState := fun s => (Except.ok s, s)

def modifyS (f : EngineState → EngineState) : EngineM Unit := fun s => (Except.ok (), f s)

def throwE {α : Type} (e : EngineError) : EngineM α := fun s => (Except.error e, s)

def freshId : EngineM Nat := fun s => (Except.ok s.nextId, { s with nextId := s.nextId + 1 })

theorem bind_apply {α β : Type} (m : EngineM α) (f : α → EngineM β) (s : EngineState) :
    (m >>= f) s =
      match m s with
      | (Except.ok a, s2) => f a s2
      | (Except.error e, s2) => (Except.error e, s2) := rfl

theorem pure_apply {α : Type} (a : α) (s : EngineState) :
    (Pure.pure (f := EngineM) a) s = (Except.ok a, s) := rfl

/-- `$transaction`: modelled from the spec (§7) — the DB transaction commits
the body's state on success and rolls every DB effect back on failure; the
error callback in `#completeWaitpoint` rethrows.  (No Redis effect occurs
before a failure point inside any transaction body in this file.) -/
def withTransaction {α : Type} (body : EngineM α) : EngineM α := fun s =>
  match body s with
  | (Except.ok a, s2) => (Except.ok a, s2)
  | (Except.error e, _) => (Except.error e, s)

/-- Replace the job with the same deterministic id, or append. -/
def upsertJob (jobs : List WorkerJob) (job : WorkerJob) : List WorkerJob :=
  match job.id with
  | some i =>
      if jobs.any fun j => j.id == some i then
        jobs.map fun j => if j.id == some i then job else j
      else jobs ++ [job]
  | none => jobs ++ [job]

/-- Modelled from the spec: the delayed-job worker comes from
`@internal/redis-worker` (not under src); §4.8 — `enqueue(job, payload,
availableAt)` where deterministic job ids collapse duplicate schedules. -/
def workerEnqueue (job : WorkerJob) : EngineM Unit :=
  modifyS fun s => { s with workerJobs := upsertJob s.workerJobs job }

/-- Modelled from the spec: `worker.ack(id)` drops the delayed job with the
given deterministic id. -/
def workerAck (i : String) : EngineM Unit :=
  modifyS fun s => { s with workerJobs := s.workerJobs.filter fun j => !(j.id == some i) }

/-- Modelled from the spec: `RunQueue.enqueueMessage` (the run queue is not
under src); §4.3 — append the message under its master queue. -/
def runQueueEnqueueMessage (_env : MinimalEnvironment) (masterQueue : String)
    (message : QueueMessage) : EngineM Unit :=
  modifyS fun s => { s with queueMessages := s.queueMessages ++ [(masterQueue, message)] }

/-- Modelled from the spec: `RunQueue.updateQueueConcurrencyLimits` writes the
limit key for `(env, queue)`. -/
def runQueueUpdateQueueConcurrencyLimits (env : MinimalEnvironment) (queueName : String)
    (limit : Nat) : EngineM Unit :=
  modifyS fun s =>
    { s with queueConcurrencyLimits :=
        (env.id, queueName, limit) ::
          s.queueConcurrencyLimits.filter fun e => !(e.1 == env.id && e.2.1 == queueName) }

/-- Modelled from the spec: `RunQueue.removeQueueConcurrencyLimits` deletes the
limit key for `(env, queue)`. -/
def runQueueRemoveQueueConcurrencyLimits (env : MinimalEnvironment)
    (queueName : String) : EngineM Unit :=
  modifyS fun s =>
    { s with queueConcurrencyLimits :=
        s.queueConcurrencyLimits.filter fun e => !(e.1 == env.id && e.2.1 == queueName) }

/-- `RunEngine.#getLatestExecutionSnapshot`: `findFirst` ordered by `createdAt`
descending.  Snapshots are appended in creation order, so the latest is the
last list entry for the run. -/
def getLatestExecutionSnapshot (s : EngineState) (runId : Nat) : Option ExecutionSnapshot :=
  s.snapshots.reverse.find? fun snap => snap.runId == runId

/-- `RunEngine.#startHeartbeating`: schedule the stall-check job
`heartbeatSnapshot.{snapshotId}` at `now + intervalSeconds * 1000` ms. -/
def startHeartbeating (runId snapshotId : Nat) (intervalSeconds : Nat) : EngineM Unit := do
  let s ← getS
  workerEnqueue
    { id := some ("heartbeatSnapshot." ++ Nat.repr snapshotId),
      payload := WorkerJobPayload.heartbeatSnapshot runId snapshotId,
      availableAt := some (s.now + intervalSeconds * 1000) }

/-- `RunEngine.#createExecutionSnapshot`: append the snapshot row, then start
the stall-check heartbeat with the interval chosen by `executionStatus`. -/
def createExecutionSnapshot (runId : Nat) (runStatus : TaskRunStatus)
    (executionStatus : TaskRunExecutionStatus) (description : String) :
    EngineM ExecutionSnapshot := do
  let i ← freshId
  let snap : ExecutionSnapshot :=
    { id := i, runId := runId, engine := "V2", executionStatus := executionStatus,
      description := description, runStatus := runStatus, createdAt := i,
      workerId := none }
  modifyS fun s => { s with snapshots := s.snapshots ++ [snap] }
  match executionStatus with
  | TaskRunExecutionStatus.RUN_CREATED
  | TaskRunExecutionStatus.QUEUED
  | TaskRunExecutionStatus.BLOCKED_BY_WAITPOINTS
  | TaskRunExecutionStatus.FINISHED
  | TaskRunExecutionStatus.DEQUEUED_FOR_EXECUTION =>
      startHeartbeating runId i 60
  | TaskRunExecutionStatus.EXECUTING =>
      startHeartbeating runId i (60 * 15)
  return snap

/-- `RunEngine.#enqueueRun`: append a QUEUED snapshot and enqueue the message. -/
def enqueueRun (run : TaskRun) (env : MinimalEnvironment) : EngineM Unit := do
  let _ ← createExecutionSnapshot run.id run.status
    TaskRunExecutionStatus.QUEUED "Run was QUEUED"
  let s ← getS
  runQueueEnqueueMessage env run.masterQueue
    { runId := run.id, taskIdentifier := run.taskIdentifier,
      orgId := env.organizationId, projectId := env.projectId,
      environmentId := env.id, environmentType := env.type,
      queue := run.queue, concurrencyKey := run.concurrencyKey,
      timestamp := s.now }

/-- `RunEngine.#continueRun`.  The leading `modifyS` records the invocation in
the `continuedRunIds` observation log; it feeds no computation.  The
EXECUTING-with-attached-worker branch appends a snapshot and then throws
`NotImplementedError`, exactly as the source does. -/
def continueRun (run : TaskRun) (env : MinimalEnvironment) : EngineM Unit := do
  modifyS fun s => { s with continuedRunIds := s.continuedRunIds ++ [run.id] }
  let s ← getS
  match getLatestExecutionSnapshot s run.id with
  | none => throwE (EngineError.err "continueRun: No snapshot found for run")
  | some snapshot =>
    if snapshot.executionStatus == TaskRunExecutionStatus.EXECUTING &&
        snapshot.workerId.isSome then do
      let _ ← createExecutionSnapshot run.id run.status
        TaskRunExecutionStatus.EXECUTING "Run was continued, whilst still executing."
      throwE (EngineError.notImplemented
        "continueRun: continue executing run, not implemented yet")
    else do
      let _ ← createExecutionSnapshot run.id run.status
        TaskRunExecutionStatus.QUEUED "Run was QUEUED, because it needs to be continued."
      let s2 ← getS
      runQueueEnqueueMessage env run.masterQueue
        { runId := run.id, taskIdentifier := run.taskIdentifier,
          orgId := env.organizationId, projectId := env.projectId,
          environmentId := env.id, environmentType := env.type,
          queue := run.queue, concurrencyKey := run.concurrencyKey,
          timestamp := s2.now }

/-- `RunEngine.#createRunAssociatedWaitpoint` (the `nanoid` idempotency key is
modelled by the id counter). -/
def createRunAssociatedWaitpoint (projectId : String) (completedByTaskRunId : Nat) :
    EngineM Waitpoint := do
  let i ← freshId
  let w : Waitpoint :=
    { id := i, type := WaitpointType.RUN, status := WaitpointStatus.PENDING,
      idempotencyKey := "nanoid." ++ Nat.repr i, userProvidedIdempotencyKey := false,
      projectId := projectId, completedByTaskRunId := some completedByTaskRunId,
      completedAfter := none }
  modifyS fun s => { s with waitpoints := s.waitpoints ++ [w] }
  return w

/-- `RunEngine.#createDateTimeWaitpoint`: create the waitpoint row and schedule
the `waitpointCompleteDateTime.{id}` delayed job at `completedAfter`. -/
def createDateTimeWaitpoint (projectId : String) (completedAfter : Nat) :
    EngineM Waitpoint := do
  let i ← freshId
  let w : Waitpoint :=
    { id := i, type := WaitpointType.DATETIME, status := WaitpointStatus.PENDING,
      idempotencyKey := "nanoid." ++ Nat.repr i, userProvidedIdempotencyKey := false,
      projectId := projectId, completedByTaskRunId := none,
      completedAfter := some completedAfter }
  modifyS fun s => { s with waitpoints := s.waitpoints ++ [w] }
  workerEnqueue
    { id := some ("waitpointCompleteDateTime." ++ Nat.repr i),
      payload := WorkerJobPayload.waitpointCompleteDateTime i,
      availableAt := some completedAfter }
  return w

/-- `RunEngine.#blockRunWithWaitpoint`: the source throws
`NotImplementedError` before reaching the `taskRunWaitpoint.create`; the
insert below it is dead code, mirrored here after the throw. -/
def blockRunWithWaitpoint (_orgId : String) (runId : Nat) (waitpoint : Waitpoint) :
    EngineM TaskRunWaitpoint := do
  let _ ← (throwE (EngineError.notImplemented "Not implemented blockRunWithWaitpoint") :
    EngineM Unit)
  let trw : TaskRunWaitpoint :=
    { taskRunId := runId, waitpointId := waitpoint.id, projectId := waitpoint.projectId }
  modifyS fun s => { s with runWaitpoints := s.runWaitpoints ++ [trw] }
  return trw

/-- The per-run body of `#completeWaitpoint` step 5: look up the included
runtime environment (a non-nullable relation; the error arm is unreachable
for states satisfying referential integrity) and hand the run to
`#continueRun`. -/
def resumeRuns : List TaskRun → EngineM Unit
  | [] => Pure.pure ()
  | r :: rest => do
    let s ← getS
    match s.envs.find? fun e => e.id == r.runtimeEnvironmentId with
    | none => throwE (EngineError.err "Run environment not found")
    | some env => do
        continueRun r env
        resumeRuns rest

/-- `RunEngine.#completeWaitpoint`: no-op when already COMPLETED, otherwise a
READ COMMITTED transaction that loads the blocked runs, deletes the
RunWaitpoint rows, marks the waitpoint COMPLETED and continues every affected
run that has no remaining RunWaitpoint rows and status PENDING or
WAITING_TO_RESUME. -/
def completeWaitpoint (id : Nat) : EngineM Unit := do
  let s0 ← getS
  match s0.waitpoints.find? fun w => w.id == id with
  | none => throwE (EngineError.err "Waitpoint not found")
  | some w =>
    if w.status == WaitpointStatus.COMPLETED then
      Pure.pure ()
    else
      withTransaction do
        let s1 ← getS
        let affectedTaskRuns :=
          (s1.runWaitpoints.filter fun rw => rw.waitpointId == id).map
            fun rw => rw.taskRunId
        if affectedTaskRuns.isEmpty then
          throwE (EngineError.err "No TaskRunWaitpoints found for waitpoint")
        else do
          modifyS fun s =>
            { s with runWaitpoints :=
                s.runWaitpoints.filter (fun rw => !(rw.waitpointId == id)) }
          modifyS fun s =>
            { s with waitpoints := s.waitpoints.map fun w2 =>
                if w2.id == id then { w2 with status := WaitpointStatus.COMPLETED }
                else w2 }
          let s2 ← getS
          let taskRunsToResume := s2.runs.filter fun r =>
            affectedTaskRuns.contains r.id &&
            !(s2.runWaitpoints.any fun rw => rw.taskRunId == r.id) &&
            (r.status == TaskRunStatus.PENDING ||
             r.status == TaskRunStatus.WAITING_TO_RESUME)
          resumeRuns taskRunsToResume

/-- `RunEngine.#handleStalledSnapshot`: when the scheduled snapshot is no
longer the latest, log, ack the stale `heartbeatSnapshot.{snapshotId}` timer
and return; every genuinely-stalled status currently throws
`NotImplementedError`. -/
def handleStalledSnapshot (runId snapshotId : Nat) : EngineM Unit := do
  let s ← getS
  match getLatestExecutionSnapshot s runId with
  | none => Pure.pure ()
  | some latestSnapshot =>
    if latestSnapshot.id == snapshotId then
      match latestSnapshot.executionStatus with
      | TaskRunExecutionStatus.BLOCKED_BY_WAITPOINTS =>
          throwE (EngineError.notImplemented "Not implemented BLOCKED_BY_WAITPOINTS")
      | TaskRunExecutionStatus.DEQUEUED_FOR_EXECUTION =>
          throwE (EngineError.notImplemented "Not implemented DEQUEUED_FOR_EXECUTION")
      | TaskRunExecutionStatus.QUEUED =>
          throwE (EngineError.notImplemented "Not implemented QUEUED")
      | TaskRunExecutionStatus.EXECUTING =>
          throwE (EngineError.notImplemented "Not implemented EXECUTING")
      | TaskRunExecutionStatus.FINISHED =>
          throwE (EngineError.notImplemented "Not implemented FINISHED")
      | TaskRunExecutionStatus.RUN_CREATED =>
          throwE (EngineError.notImplemented "Not implemented RUN_CREATED")
    else
      workerAck ("heartbeatSnapshot." ++ Nat.repr snapshotId)

/-- Modelled from the spec: `parseNaturalLanguageDuration` lives in
`@trigger.dev/core` (not under src).  It parses durations such as "30s",
"5m", "2h", "1d"; `trigger` only branches on whether the parse succeeded. -/
def parseNaturalLanguageDuration (ttl : String) : Option Nat :=
  let ds := ttl.data.takeWhile Char.isDigit
  let rest := ttl.data.dropWhile Char.isDigit
  if ds.isEmpty then none
  else
    let n := ds.foldl (fun acc c => acc * 10 + (c.toNat - 48)) 0
    match rest with
    | ['s'] => some (n * 1000)
    | ['m'] => some (n * 60 * 1000)
    | ['h'] => some (n * 60 * 60 * 1000)
    | ['d'] => some (n * 24 * 60 * 60 * 1000)
    | _ => none

/-- `QueueOptions` (the queue options supplied with a trigger call). -/
structure QueueOptions where
  concurrencyLimit : Option Int
  rateLimit : Option Nat
deriving DecidableEq, Repr

/-- The fields of `TriggerParams` the engine reads (trace/span bookkeeping
fields that are only copied verbatim into the row are elided). -/
structure TriggerParams where
  friendlyId : String
  number : Nat
  environment : MinimalEnvironment
  idempotencyKey : Option String
  taskIdentifier : String
  payload : String
  payloadType : String
  concurrencyKey : Option String
  masterQueue : String
  queueName : String
  queue : Option QueueOptions
  isTest : Bool
  delayUntil : Option Nat
  queuedAt : Option Nat
  maxAttempts : Option Nat
  ttl : Option String
  parentTaskRunId : Option Nat
  resumeParentOnCompletion : Bool
  depth : Nat
deriving DecidableEq, Repr

/-- `RunEngine.trigger`.  The initial RUN_CREATED snapshot is written by the
nested `executionSnapshot.create` inside `prisma.taskRun.create`, so it does
not pass through `#createExecutionSnapshot` (and schedules no heartbeat).
The distributed run lock serialises engine processes and is not modelled
(computations here are sequential); lock-extension aborts are not modelled. -/
def trigger (p : TriggerParams) : EngineM TaskRun := do
  let status :=
    if p.delayUntil.isSome then TaskRunStatus.DELAYED else TaskRunStatus.PENDING
  let runId ← freshId
  let taskRun : TaskRun :=
    { id := runId, friendlyId := p.friendlyId, number := p.number, status := status,
      runtimeEnvironmentId := p.environment.id, projectId := p.environment.projectId,
      idempotencyKey := p.idempotencyKey, taskIdentifier := p.taskIdentifier,
      payload := p.payload, payloadType := p.payloadType,
      concurrencyKey := p.concurrencyKey, queue := p.queueName,
      masterQueue := p.masterQueue, isTest := p.isTest, delayUntil := p.delayUntil,
      queuedAt := p.queuedAt, maxAttempts := p.maxAttempts, ttl := p.ttl,
      parentTaskRunId := p.parentTaskRunId,
      resumeParentOnCompletion := p.resumeParentOnCompletion, depth := p.depth }
  modifyS fun s => { s with runs := s.runs ++ [taskRun] }
  let snapId ← freshId
  modifyS fun s =>
    { s with snapshots := s.snapshots ++
        [{ id := snapId, runId := runId, engine := "V2",
           executionStatus := TaskRunExecutionStatus.RUN_CREATED,
           description := "Run was created", runStatus := status,
           createdAt := snapId, workerId := none }] }
  let associatedWaitpoint ← createRunAssociatedWaitpoint p.environment.projectId runId
  let blockStep : EngineM Unit :=
    match p.resumeParentOnCompletion, p.parentTaskRunId with
    | true, some parentId => do
        let _ ← blockRunWithWaitpoint p.environment.organizationId parentId
          associatedWaitpoint
        Pure.pure ()
    | _, _ => Pure.pure ()
  blockStep
  let applyLimits : TaskQueue → EngineM Unit := fun tq =>
    match tq.concurrencyLimit with
    | some limit => runQueueUpdateQueueConcurrencyLimits p.environment tq.name limit
    | none => runQueueRemoveQueueConcurrencyLimits p.environment tq.name
  let queueStep : EngineM Unit :=
    match p.queue with
    | none => Pure.pure ()
    | some q => do
        let concurrencyLimit : Option Nat :=
          match q.concurrencyLimit with
          | some n => some (Int.toNat (max 0 n))
          | none => none
        let s ← getS
        match s.taskQueues.find? fun tq =>
            tq.runtimeEnvironmentId == p.environment.id && tq.name == p.queueName with
        | some tq0 => do
            let tq := { tq0 with concurrencyLimit := concurrencyLimit,
                                 rateLimit := q.rateLimit }
            modifyS fun s2 =>
              { s2 with taskQueues := s2.taskQueues.map fun t =>
                  if t.id == tq.id then tq else t }
            applyLimits tq
        | none => do
            let i ← freshId
            let tq : TaskQueue :=
              { id := i, friendlyId := "queue." ++ Nat.repr i, name := p.queueName,
                concurrencyLimit := concurrencyLimit,
                runtimeEnvironmentId := p.environment.id,
                projectId := p.environment.projectId, rateLimit := q.rateLimit,
                type := TaskQueueType.NAMED }
            modifyS fun s2 => { s2 with taskQueues := s2.taskQueues ++ [tq] }
            applyLimits tq
  queueStep
  let delayStep : EngineM Unit :=
    match taskRun.delayUntil with
    | some d => do
        let delayWaitpoint ← createDateTimeWaitpoint p.environment.projectId d
        modifyS fun s =>
          { s with runWaitpoints := s.runWaitpoints ++
              [{ taskRunId := taskRun.id, waitpointId := delayWaitpoint.id,
                 projectId := delayWaitpoint.projectId }] }
    | none => Pure.pure ()
  delayStep
  let ttlStep : EngineM Unit :=
    if taskRun.delayUntil.isNone then
      match taskRun.ttl with
      | some ttl =>
          match parseNaturalLanguageDuration ttl with
          | some _ =>
              workerEnqueue
                { id := none, payload := WorkerJobPayload.expireRun taskRun.id,
                  availableAt := none }
          | none => Pure.pure ()
      | none => Pure.pure ()
    else Pure.pure ()
  ttlStep
  if taskRun.delayUntil.isNone then
    enqueueRun taskRun p.environment
  else
    Pure.pure ()
  return taskRun

/-! ### Concrete fixtures for witnesses and counterexamples -/

/-- An empty engine store. -/
def initialState : EngineState :=
  { now := 1000, nextId := 0, runs := [], snapshots := [], waitpoints := [],
    runWaitpoints := [], taskQueues := [], workerJobs := [], queueMessages := [],
    queueConcurrencyLimits := [], envs := [], continuedRunIds := [] }

def sampleEnv : MinimalEnvironment :=
  { id := "env-1", type := RuntimeEnvironmentType.PRODUCTION,
    organizationId := "org-1", projectId := "proj-1", maximumConcurrencyLimit := 10 }

/-- A plain trigger call: idempotency key set, no delay, no ttl, no queue
options, no parent. -/
def sampleParams : TriggerParams :=
  { friendlyId := "run-friendly-1", number := 1, environment := sampleEnv,
    idempotencyKey := some "idem-key-1", taskIdentifier := "hello",
    payload := "", payloadType := "application/json", concurrencyKey := none,
    masterQueue := "main", queueName := "task/hello", queue := none,
    isTest := false, delayUntil := none, queuedAt := none, maxAttempts := none,
    ttl := none, parentTaskRunId := none, resumeParentOnCompletion := false,
    depth := 0 }

def firstTrigger : Except EngineError TaskRun × EngineState :=
  trigger sampleParams initialState

def secondTrigger : Except EngineError TaskRun × EngineState :=
  trigger sampleParams firstTrigger.2

/-! ## Claim theorems for the engine -/

/-- A COMPLETED run-type waitpoint fixture. -/
def completedWaitpointFixture : Waitpoint :=
  { id := 7, type := WaitpointType.RUN, status := WaitpointStatus.COMPLETED,
    idempotencyKey := "ik", userProvidedIdempotencyKey := false,
    projectId := "proj-1", completedByTaskRunId := some 3, completedAfter := none }

/-- A PENDING run-type waitpoint fixture. -/
def pendingWaitpointFixture : Waitpoint :=
  { id := 7, type := WaitpointType.RUN, status := WaitpointStatus.PENDING,
    idempotencyKey := "ik", userProvidedIdempotencyKey := false,
    projectId := "proj-1", completedByTaskRunId := some 3, completedAfter := none }

/-- C9: `completeWaitpoint` is idempotent — on a waitpoint whose status is
already COMPLETED it returns without changing any waitpoint, RunWaitpoint,
run or queue state (the returned state is the input state). -/
theorem claim_C9_completeWaitpointIdempotent (s : EngineState) (wid : Nat) (w : Waitpoint)
    (hfind : s.waitpoints.find? (fun w2 => w2.id == wid) = some w)
    (hst : w.status = WaitpointStatus.COMPLETED) :
    completeWaitpoint wid s = (Except.ok (), s) := by
  unfold completeWaitpoint
  simp [bind_apply, getS, hfind, hst, pure_apply]

/-- Witness for C9: a second completion of an already-completed waitpoint
changes nothing. -/
theorem claim_C9_completeWaitpointIdempotent_witness :
    completeWaitpoint 7 { initialState with waitpoints := [completedWaitpointFixture] } =
      (Except.ok (), { initialState with waitpoints := [completedWaitpointFixture] }) :=
  claim_C9_completeWaitpointIdempotent
    { initialState with waitpoints := [completedWaitpointFixture] } 7
    completedWaitpointFixture (by decide) (by decide)

/-- C10: completing a PENDING waitpoint on which no run is blocked throws,
and the transaction rollback leaves the state — in particular the waitpoint's
PENDING status — unchanged. -/
theorem claim_C10_completePendingUnblocked (s : EngineState) (wid : Nat) (w : Waitpoint)
    (hfind : s.waitpoints.find? (fun w2 => w2.id == wid) = some w)
    (hst : w.status = WaitpointStatus.PENDING)
    (hrw : s.runWaitpoints.filter (fun rw => rw.waitpointId == wid) = []) :
    completeWaitpoint wid s =
      (Except.error (EngineError.err "No TaskRunWaitpoints found for waitpoint"), s) := by
  unfold completeWaitpoint
  have hrw2 := hrw
  simp only [List.filter_eq_nil_iff, beq_iff_eq] at hrw2
  simp [bind_apply, getS, hfind, hst, pure_apply, withTransaction, throwE, if_pos hrw2]

/-- C5: every call to `#createExecutionSnapshot` appends exactly one snapshot
row and schedules exactly one delayed stall-check job
`heartbeatSnapshot.{snapshotId}`, with delay 60 seconds for RUN_CREATED,
QUEUED, BLOCKED_BY_WAITPOINTS, DEQUEUED_FOR_EXECUTION and FINISHED, and
15 minutes (60 * 15 seconds) for EXECUTING. -/
theorem claim_C5_heartbeatIntervals (runId : Nat) (runStatus : TaskRunStatus)
    (es : TaskRunExecutionStatus) (desc : String) (s : EngineState) :
    createExecutionSnapshot runId runStatus es desc s =
      (Except.ok
        { id := s.nextId, runId := runId, engine := "V2", executionStatus := es,
          description := desc, runStatus := runStatus, createdAt := s.nextId,
          workerId := none },
       { s with
          nextId := s.nextId + 1,
          snapshots := s.snapshots ++
            [{ id := s.nextId, runId := runId, engine := "V2",
               executionStatus := es, description := desc,
               runStatus := runStatus, createdAt := s.nextId, workerId := none }],
          workerJobs := upsertJob s.workerJobs
            { id := some ("heartbeatSnapshot." ++ Nat.repr s.nextId),
              payload := WorkerJobPayload.heartbeatSnapshot runId s.nextId,
              availableAt := some (s.now +
                (if es = TaskRunExecutionStatus.EXECUTING then 60 * 15 else 60) *
                  1000) } }) := by
  cases es <;> rfl

/-- C6: when the stall-check fires for a snapshot that is no longer the
latest, the handler only drops the stale timer job — runs, snapshots,
waitpoints, RunWaitpoint rows and the run queue are untouched, and no
recovery action runs. -/
theorem claim_C6_staleStallCheckDropped (s : EngineState) (runId snapshotId : Nat)
    (snap : ExecutionSnapshot)
    (hlatest : getLatestExecutionSnapshot s runId = some snap)
    (hne : snap.id ≠ snapshotId) :
    handleStalledSnapshot runId snapshotId s =
      (Except.ok (),
       { s with workerJobs :=
           (s.workerJobs.filter
             (fun j => !(j.id == some ("heartbeatSnapshot." ++ Nat.repr snapshotId)))) }) := by
  unfold handleStalledSnapshot
  simp [bind_apply, getS, hlatest, workerAck, modifyS, if_neg hne]

/-- A latest-snapshot fixture whose id (1) differs from a stale timer's
scheduled snapshot id (0). -/
def staleSnapshotFixture : ExecutionSnapshot :=
  { id := 1, runId := 5, engine := "V2",
    executionStatus := TaskRunExecutionStatus.EXECUTING, description := "d",
    runStatus := TaskRunStatus.EXECUTING, createdAt := 1, workerId := none }

def staleState : EngineState :=
  { initialState with
      snapshots := [staleSnapshotFixture],
      workerJobs := [{ id := some "heartbeatSnapshot.0",
                       payload := WorkerJobPayload.heartbeatSnapshot 5 0,
                       availableAt := some 2000 }] }

/-- Witness for C6 at a concrete stale timer. -/
theorem claim_C6_staleStallCheckDropped_witness :
    handleStalledSnapshot 5 0 staleState =
      (Except.ok (),
       { staleState with workerJobs :=
           (staleState.workerJobs.filter
             (fun j => !(j.id == some ("heartbeatSnapshot." ++ Nat.repr 0)))) }) :=
  claim_C6_staleStallCheckDropped staleState 5 0 staleSnapshotFixture
    (by decide) (by decide)

/-- Witness for C10: the concrete PENDING waitpoint with no blocked runs. -/
theorem claim_C10_completePendingUnblocked_witness :
    completeWaitpoint 7 { initialState with waitpoints := [pendingWaitpointFixture] } =
      (Except.error (EngineError.err "No TaskRunWaitpoints found for waitpoint"),
       { initialState with waitpoints := [pendingWaitpointFixture] }) :=
  claim_C10_completePendingUnblocked
    { initialState with waitpoints := [pendingWaitpointFixture] } 7
    pendingWaitpointFixture (by decide) (by decide) (by decide)

/-- C2: a trigger call with `resumeParentOnCompletion` and a parent run never
reaches the `taskRunWaitpoint.create` — `#blockRunWithWaitpoint` throws
`NotImplementedError` first, so `trigger` fails and no RunWaitpoint row
linking the parent to the child's associated waitpoint exists afterwards. -/
theorem claim_C2_blockParentThrows (s : EngineState) (p : TriggerParams) (parentId : Nat)
    (hr : p.resumeParentOnCompletion = true)
    (hp : p.parentTaskRunId = some parentId) :
    (trigger p s).1 =
      Except.error (EngineError.notImplemented "Not implemented blockRunWithWaitpoint") ∧
    (trigger p s).2.runWaitpoints = s.runWaitpoints := by
  unfold trigger
  simp [bind_apply, pure_apply, getS, modifyS, throwE, freshId, hr, hp,
    createRunAssociatedWaitpoint, blockRunWithWaitpoint]

/-- Witness for C2: the concrete parent-blocking trigger call. -/
theorem claim_C2_blockParentThrows_witness :
    (trigger { sampleParams with resumeParentOnCompletion := true,
                                 parentTaskRunId := some 99 } initialState).1 =
      Except.error (EngineError.notImplemented "Not implemented blockRunWithWaitpoint") ∧
    (trigger { sampleParams with resumeParentOnCompletion := true,
                                 parentTaskRunId := some 99 } initialState).2.runWaitpoints =
      initialState.runWaitpoints :=
  claim_C2_blockParentThrows initialState
    { sampleParams with resumeParentOnCompletion := true, parentTaskRunId := some 99 }
    99 rfl rfl

/-- C4: a trigger call with a parsable ttl and no delay enqueues the
`expireRun` delayed job with NO `availableAt` (the computed expiry time is
discarded), so the job is runnable immediately rather than at now + ttl.
The final worker queue is exactly the input queue plus the immediate
`expireRun` job, then the QUEUED snapshot's heartbeat job. -/
theorem claim_C4_ttlExpireJobImmediate (s : EngineState) (p : TriggerParams)
    (t : String) (d : Nat)
    (hd : p.delayUntil = none) (ht : p.ttl = some t)
    (hparse : parseNaturalLanguageDuration t = some d)
    (hq : p.queue = none) (hr : p.resumeParentOnCompletion = false) :
    ∃ run s2, trigger p s = (Except.ok run, s2) ∧ run.id = s.nextId ∧
      s2.workerJobs =
        upsertJob (s.workerJobs ++
            [{ id := none, payload := WorkerJobPayload.expireRun s.nextId,
               availableAt := none }])
          { id := some ("heartbeatSnapshot." ++ Nat.repr (s.nextId + 3)),
            payload := WorkerJobPayload.heartbeatSnapshot s.nextId (s.nextId + 3),
            availableAt := some (s.now + 60 * 1000) } := by
  unfold trigger
  simp only [bind_apply, pure_apply, getS, modifyS, throwE, freshId, hd, ht, hq, hr,
    hparse, createRunAssociatedWaitpoint, enqueueRun, createExecutionSnapshot,
    startHeartbeating, workerEnqueue, runQueueEnqueueMessage, Option.isSome_none,
    Option.isNone_none, Bool.false_eq_true, if_false, if_true, Nat.add_assoc]
  exact ⟨_, _, rfl, rfl, rfl⟩

/-- Witness for C4: a ttl of "30s" produces an immediately-available
`expireRun` job. -/
theorem claim_C4_ttlExpireJobImmediate_witness :
    ∃ run s2,
      trigger { sampleParams with ttl := some "30s" } initialState =
        (Except.ok run, s2) ∧
      run.id = initialState.nextId ∧
      s2.workerJobs =
        upsertJob (initialState.workerJobs ++
            [{ id := none, payload := WorkerJobPayload.expireRun initialState.nextId,
               availableAt := none }])
          { id := some ("heartbeatSnapshot." ++ Nat.repr (initialState.nextId + 3)),
            payload := WorkerJobPayload.heartbeatSnapshot initialState.nextId
              (initialState.nextId + 3),
            availableAt := some (initialState.now + 60 * 1000) } :=
  claim_C4_ttlExpireJobImmediate initialState { sampleParams with ttl := some "30s" }
    "30s" 30000 rfl rfl (by decide) rfl rfl

/-- C1: the claim that `trigger` is idempotent on `idempotencyKey` is FALSE in
this source: `trigger` never reads `idempotencyKey` (it only stores it), so
two identical calls create two distinct runs (ids 0 and 4), two run rows and
two initial RUN_CREATED snapshots. -/
theorem claim_C1_triggerIdempotency_counterexample :
    firstTrigger.1.map TaskRun.id = Except.ok 0 ∧
    secondTrigger.1.map TaskRun.id = Except.ok 4 ∧
    secondTrigger.2.runs.length = 2 ∧
    (secondTrigger.2.snapshots.filter
      (fun sn => sn.executionStatus == TaskRunExecutionStatus.RUN_CREATED)).length = 2 := by
  exact ⟨rfl, rfl, rfl, rfl⟩

/-- C1 (amended): `trigger` performs no idempotency check — for any starting
state, calling it twice with the same parameters (same `idempotencyKey`, no
delay, no queue options, no parent blocking) succeeds twice, returns two
DISTINCT run ids and creates one new run row and one new initial snapshot per
call. -/
theorem claim_C1_triggerIdempotency (s : EngineState) (p : TriggerParams)
    (hr : p.resumeParentOnCompletion = false) (hq : p.queue = none)
    (hd : p.delayUntil = none) :
    ∃ r1 s1 r2 s2,
      trigger p s = (Except.ok r1, s1) ∧
      trigger p s1 = (Except.ok r2, s2) ∧
      r1.id ≠ r2.id ∧
      s1.runs.length = s.runs.length + 1 ∧
      s2.runs.length = s.runs.length + 2 ∧
      (s1.snapshots.filter
        (fun sn => sn.executionStatus == TaskRunExecutionStatus.RUN_CREATED)).length =
        (s.snapshots.filter
          (fun sn => sn.executionStatus == TaskRunExecutionStatus.RUN_CREATED)).length
          + 1 ∧
      (s2.snapshots.filter
        (fun sn => sn.executionStatus == TaskRunExecutionStatus.RUN_CREATED)).length =
        (s.snapshots.filter
          (fun sn => sn.executionStatus == TaskRunExecutionStatus.RUN_CREATED)).length
          + 2 := by
  unfold trigger
  rcases httl : p.ttl with _ | t
  · simp only [bind_apply, pure_apply, getS, modifyS, throwE, freshId, hd, hq, hr,
      httl, createRunAssociatedWaitpoint, enqueueRun, createExecutionSnapshot,
      startHeartbeating, workerEnqueue, runQueueEnqueueMessage, Option.isSome_none,
      Option.isNone_none, Bool.false_eq_true, if_false, if_true, Nat.add_assoc]
    refine ⟨_, _, _, _, rfl, rfl, ?_, ?_, ?_, ?_, ?_⟩ <;>
      simp [List.filter_append, Nat.add_assoc]
  · rcases hparse : parseNaturalLanguageDuration t with _ | dur
    · simp only [bind_apply, pure_apply, getS, modifyS, throwE, freshId, hd, hq, hr,
        httl, hparse, createRunAssociatedWaitpoint, enqueueRun,
        createExecutionSnapshot, startHeartbeating, workerEnqueue,
        runQueueEnqueueMessage, Option.isSome_none, Option.isNone_none,
        Bool.false_eq_true, if_false, if_true, Nat.add_assoc]
      refine ⟨_, _, _, _, rfl, rfl, ?_, ?_, ?_, ?_, ?_⟩ <;>
        simp [List.filter_append, Nat.add_assoc]
    · simp only [bind_apply, pure_apply, getS, modifyS, throwE, freshId, hd, hq, hr,
        httl, hparse, createRunAssociatedWaitpoint, enqueueRun,
        createExecutionSnapshot, startHeartbeating, workerEnqueue,
        runQueueEnqueueMessage, Option.isSome_none, Option.isNone_none,
        Bool.false_eq_true, if_false, if_true, Nat.add_assoc]
      refine ⟨_, _, _, _, rfl, rfl, ?_, ?_, ?_, ?_, ?_⟩ <;>
        simp [List.filter_append, Nat.add_assoc]

/-! ### Supporting lemmas for completeWaitpoint (C3) -/

/-- Appending a snapshot for another run does not change a run's latest
snapshot. -/
theorem getLatest_append_other (σ : EngineState) (x : ExecutionSnapshot) (rid : Nat)
    (hx : x.runId ≠ rid) (rest : EngineState)
    (hrest : rest.snapshots = σ.snapshots ++ [x]) :
    getLatestExecutionSnapshot rest rid = getLatestExecutionSnapshot σ rid := by
  unfold getLatestExecutionSnapshot
  rw [hrest, List.reverse_append]
  simp [List.find?, beq_eq_false_iff_ne.mpr hx]

/-- The success behaviour of `#continueRun`: when the run's latest snapshot is
not an EXECUTING snapshot with an attached worker, the run gets a fresh QUEUED
snapshot (plus its heartbeat job), is re-enqueued, and the invocation is
recorded in the observation log. -/
theorem continueRun_spec (r : TaskRun) (e : MinimalEnvironment) (σ : EngineState)
    (snap : ExecutionSnapshot)
    (hsnap : getLatestExecutionSnapshot σ r.id = some snap)
    (hnw : ¬(snap.executionStatus = TaskRunExecutionStatus.EXECUTING ∧
             snap.workerId.isSome = true)) :
    continueRun r e σ =
      (Except.ok (),
       { σ with
          nextId := σ.nextId + 1,
          snapshots := σ.snapshots ++
            [{ id := σ.nextId, runId := r.id, engine := "V2",
               executionStatus := TaskRunExecutionStatus.QUEUED,
               description := "Run was QUEUED, because it needs to be continued.",
               runStatus := r.status, createdAt := σ.nextId, workerId := none }],
          workerJobs := upsertJob σ.workerJobs
            { id := some ("heartbeatSnapshot." ++ Nat.repr σ.nextId),
              payload := WorkerJobPayload.heartbeatSnapshot r.id σ.nextId,
              availableAt := some (σ.now + 60 * 1000) },
          queueMessages := σ.queueMessages ++
            [(r.masterQueue,
              { runId := r.id, taskIdentifier := r.taskIdentifier,
                orgId := e.organizationId, projectId := e.projectId,
                environmentId := e.id, environmentType := e.type,
                queue := r.queue, concurrencyKey := r.concurrencyKey,
                timestamp := σ.now })],
          continuedRunIds := σ.continuedRunIds ++ [r.id] }) := by
  have hcond : (snap.executionStatus == TaskRunExecutionStatus.EXECUTING &&
      snap.workerId.isSome) = false := by
    by_cases h1 : snap.executionStatus = TaskRunExecutionStatus.EXECUTING
    · cases hw : snap.workerId.isSome
      · simp
      · exact absurd ⟨h1, hw⟩ hnw
    · simp [h1]
  unfold continueRun
  unfold getLatestExecutionSnapshot at hsnap
  simp only [bind_apply, pure_apply, getS, modifyS, freshId,
    getLatestExecutionSnapshot, hsnap, hcond, Bool.false_eq_true, if_false,
    createExecutionSnapshot, startHeartbeating, workerEnqueue,
    runQueueEnqueueMessage]

/-- Success and effects of the resume loop of `#completeWaitpoint` step 5:
when every run in the list has a usable environment and a continuable latest
snapshot, and the run ids are distinct, the loop continues exactly the listed
runs, leaving the run, RunWaitpoint and waitpoint tables untouched. -/
theorem resumeRuns_spec (rs : List TaskRun) (σ : EngineState)
    (hpre : ∀ r ∈ rs,
      (σ.envs.find? (fun e => e.id == r.runtimeEnvironmentId)).isSome = true ∧
      ∃ snap, getLatestExecutionSnapshot σ r.id = some snap ∧
        ¬(snap.executionStatus = TaskRunExecutionStatus.EXECUTING ∧
          snap.workerId.isSome = true))
    (hnd : (rs.map TaskRun.id).Nodup) :
    ∃ σ2, resumeRuns rs σ = (Except.ok (), σ2) ∧
      σ2.runs = σ.runs ∧ σ2.runWaitpoints = σ.runWaitpoints ∧
      σ2.waitpoints = σ.waitpoints ∧ σ2.envs = σ.envs ∧
      σ2.continuedRunIds = σ.continuedRunIds ++ rs.map TaskRun.id := by
  induction rs generalizing σ with
  | nil =>
    exact ⟨σ, rfl, rfl, rfl, rfl, rfl, by simp⟩
  | cons r rest ih =>
    obtain ⟨henv, snap, hsnap, hnw⟩ := hpre r (by simp)
    rcases hfind : σ.envs.find? (fun e => e.id == r.runtimeEnvironmentId) with _ | e
    · rw [hfind] at henv; exact absurd henv (by simp)
    · have hcont := continueRun_spec r e σ snap hsnap hnw
      set σ1 := (continueRun r e σ).2 with hσ1
      have hσ1eq : continueRun r e σ = (Except.ok (), σ1) := by
        rw [hcont]; rw [hcont] at hσ1; rw [hσ1]
      have hnd2 : (rest.map TaskRun.id).Nodup := (List.nodup_cons.mp hnd).2
      have hrid : r.id ∉ rest.map TaskRun.id := (List.nodup_cons.mp hnd).1
      have hpre2 : ∀ r2 ∈ rest,
          (σ1.envs.find? (fun e2 => e2.id == r2.runtimeEnvironmentId)).isSome = true ∧
          ∃ snap2, getLatestExecutionSnapshot σ1 r2.id = some snap2 ∧
            ¬(snap2.executionStatus = TaskRunExecutionStatus.EXECUTING ∧
              snap2.workerId.isSome = true) := by
        intro r2 hr2
        obtain ⟨henv2, snap2, hsnap2, hnw2⟩ := hpre r2 (List.mem_cons_of_mem r hr2)
        have henvs : σ1.envs = σ.envs := by rw [hσ1]; rw [hcont]
        have hlatest : getLatestExecutionSnapshot σ1 r2.id =
            getLatestExecutionSnapshot σ r2.id := by
          refine getLatest_append_other σ
            { id := σ.nextId, runId := r.id, engine := "V2",
              executionStatus := TaskRunExecutionStatus.QUEUED,
              description := "Run was QUEUED, because it needs to be continued.",
              runStatus := r.status, createdAt := σ.nextId, workerId := none }
            r2.id ?_ σ1 ?_
          · intro hEq
            have hEq2 : r.id = r2.id := hEq
            exact hrid (hEq2 ▸ List.mem_map.mpr ⟨r2, hr2, rfl⟩)
          · rw [hσ1, hcont]
        rw [henvs, hlatest]
        exact ⟨henv2, snap2, hsnap2, hnw2⟩
      obtain ⟨σ2, hloop, h1, h2, h3, h4, h5⟩ := ih σ1 hpre2 hnd2
      refine ⟨σ2, ?_, ?_, ?_, ?_, ?_, ?_⟩
      · show resumeRuns (r :: rest) σ = (Except.ok (), σ2)
        unfold resumeRuns
        simp only [bind_apply, getS, hfind, hσ1eq, hloop]
      · rw [h1, hσ1, hcont]
      · rw [h2, hσ1, hcont]
      · rw [h3, hσ1, hcont]
      · rw [h4, hσ1, hcont]
      · rw [h5, hσ1, hcont]
        simp

/-- The set of runs `#completeWaitpoint` step 4 selects for resuming:
formerly blocked by `wid`, no other RunWaitpoint rows, and status PENDING or
WAITING_TO_RESUME (evaluated after the rows for `wid` are deleted). -/
def waitpointResumeSet (s : EngineState) (wid : Nat) : List TaskRun :=
  s.runs.filter (fun r =>
    ((s.runWaitpoints.filter (fun rw => rw.waitpointId == wid)).map
        (fun rw => rw.taskRunId)).contains r.id &&
    !((s.runWaitpoints.filter (fun rw => !(rw.waitpointId == wid))).any
        (fun rw => rw.taskRunId == r.id)) &&
    (r.status == TaskRunStatus.PENDING ||
     r.status == TaskRunStatus.WAITING_TO_RESUME))

/-- C3: completing a not-yet-completed waitpoint with at least one blocked run
deletes all of its RunWaitpoint rows, marks it COMPLETED, and calls
`#continueRun` exactly on the formerly-blocked runs that are left with no
RunWaitpoint rows and have status PENDING or WAITING_TO_RESUME — no other run
is continued (the observation log extends by exactly those run ids). -/
theorem claim_C3_completeWaitpointContinues (s : EngineState) (wid : Nat) (w : Waitpoint)
    (hfind : s.waitpoints.find? (fun w2 => w2.id == wid) = some w)
    (hst : w.status ≠ WaitpointStatus.COMPLETED)
    (hblocked : s.runWaitpoints.filter (fun rw => rw.waitpointId == wid) ≠ [])
    (hnd : ((waitpointResumeSet s wid).map TaskRun.id).Nodup)
    (hpre : ∀ r ∈ waitpointResumeSet s wid,
      (s.envs.find? (fun e => e.id == r.runtimeEnvironmentId)).isSome = true ∧
      ∃ snap, getLatestExecutionSnapshot s r.id = some snap ∧
        ¬(snap.executionStatus = TaskRunExecutionStatus.EXECUTING ∧
          snap.workerId.isSome = true)) :
    ∃ s2, completeWaitpoint wid s = (Except.ok (), s2) ∧
      s2.runs = s.runs ∧
      s2.runWaitpoints = s.runWaitpoints.filter (fun rw => !(rw.waitpointId == wid)) ∧
      s2.waitpoints = s.waitpoints.map (fun w2 =>
        if w2.id == wid then { w2 with status := WaitpointStatus.COMPLETED } else w2) ∧
      s2.continuedRunIds =
        s.continuedRunIds ++ (waitpointResumeSet s wid).map TaskRun.id := by
  have hstb : (w.status == WaitpointStatus.COMPLETED) = false :=
    beq_eq_false_iff_ne.mpr hst
  have hbne : ((s.runWaitpoints.filter (fun rw => rw.waitpointId == wid)).map
      (fun rw => rw.taskRunId)).isEmpty = false := by
    rcases h : s.runWaitpoints.filter (fun rw => rw.waitpointId == wid) with _ | ⟨x, xs⟩
    · exact absurd h hblocked
    · rw [h]; rfl
  obtain ⟨σ2, hloop, h1, h2, h3, h4, h5⟩ :=
    resumeRuns_spec (waitpointResumeSet s wid)
      { s with
        runWaitpoints := s.runWaitpoints.filter (fun rw => !(rw.waitpointId == wid)),
        waitpoints := s.waitpoints.map (fun w2 =>
          if w2.id == wid then { w2 with status := WaitpointStatus.COMPLETED }
          else w2) }
      (fun r hr => hpre r hr) hnd
  refine ⟨σ2, ?_, ?_, ?_, ?_, ?_⟩
  · unfold completeWaitpoint
    simp only [bind_apply, pure_apply, getS, modifyS, hfind, hstb,
      Bool.false_eq_true, if_false, withTransaction, hbne]
    rw [show (waitpointResumeSet s wid) =
      ({ s with
          runWaitpoints := s.runWaitpoints.filter (fun rw => !(rw.waitpointId == wid)),
          waitpoints := s.waitpoints.map (fun w2 =>
            if w2.id == wid then { w2 with status := WaitpointStatus.COMPLETED }
            else w2) } : EngineState).runs.filter (fun r =>
        ((s.runWaitpoints.filter (fun rw => rw.waitpointId == wid)).map
            (fun rw => rw.taskRunId)).contains r.id &&
        !(({ s with
              runWaitpoints :=
                s.runWaitpoints.filter (fun rw => !(rw.waitpointId == wid)),
              waitpoints := s.waitpoints.map (fun w2 =>
                if w2.id == wid then { w2 with status := WaitpointStatus.COMPLETED }
                else w2) } : EngineState).runWaitpoints.any
            (fun rw => rw.taskRunId == r.id)) &&
        (r.status == TaskRunStatus.PENDING ||
         r.status == TaskRunStatus.WAITING_TO_RESUME)) from rfl] at hloop
    rw [hloop]
  · rw [h1]
  · rw [h2]
  · rw [h3]
  · rw [h5]

/-- A run blocked only by waitpoint 10, resumable once it completes. -/
def resumableRunFixture : TaskRun :=
  { id := 1, friendlyId := "run-A", number := 1,
    status := TaskRunStatus.WAITING_TO_RESUME, runtimeEnvironmentId := "env-1",
    projectId := "proj-1", idempotencyKey := none, taskIdentifier := "hello",
    payload := "", payloadType := "application/json", concurrencyKey := none,
    queue := "task/hello", masterQueue := "main", isTest := false,
    delayUntil := none, queuedAt := none, maxAttempts := none, ttl := none,
    parentTaskRunId := none, resumeParentOnCompletion := false, depth := 0 }

/-- A run blocked by waitpoints 10 and 11: completing 10 must not resume it. -/
def stillBlockedRunFixture : TaskRun :=
  { resumableRunFixture with id := 2, friendlyId := "run-B" }

def blockedSnapshotFixture : ExecutionSnapshot :=
  { id := 3, runId := 1, engine := "V2",
    executionStatus := TaskRunExecutionStatus.BLOCKED_BY_WAITPOINTS,
    description := "blocked", runStatus := TaskRunStatus.WAITING_TO_RESUME,
    createdAt := 3, workerId := none }

def blockedState : EngineState :=
  { initialState with
      nextId := 20,
      runs := [resumableRunFixture, stillBlockedRunFixture],
      snapshots := [blockedSnapshotFixture],
      waitpoints := [{ pendingWaitpointFixture with id := 10 },
                     { pendingWaitpointFixture with id := 11 }],
      runWaitpoints := [{ taskRunId := 1, waitpointId := 10, projectId := "proj-1" },
                        { taskRunId := 2, waitpointId := 10, projectId := "proj-1" },
                        { taskRunId := 2, waitpointId := 11, projectId := "proj-1" }],
      envs := [sampleEnv] }

/-- Witness for C3: completing waitpoint 10 deletes both of its rows, marks it
COMPLETED and continues exactly run 1 (run 2 stays blocked by waitpoint 11). -/
theorem claim_C3_completeWaitpointContinues_witness :
    ∃ s2, completeWaitpoint 10 blockedState = (Except.ok (), s2) ∧
      s2.runs = blockedState.runs ∧
      s2.runWaitpoints =
        blockedState.runWaitpoints.filter (fun rw => !(rw.waitpointId == 10)) ∧
      s2.waitpoints = blockedState.waitpoints.map (fun w2 =>
        if w2.id == 10 then { w2 with status := WaitpointStatus.COMPLETED } else w2) ∧
      s2.continuedRunIds =
        blockedState.continuedRunIds ++
          (waitpointResumeSet blockedState 10).map TaskRun.id :=
  claim_C3_completeWaitpointContinues blockedState 10
    { pendingWaitpointFixture with id := 10 }
    (by decide) (by decide) (by decide) (by decide)
    (by
      intro r hr
      have hset : waitpointResumeSet blockedState 10 = [resumableRunFixture] := by
        decide
      rw [hset] at hr
      have hr2 : r = resumableRunFixture := by simpa using hr
      subst hr2
      exact ⟨by decide, blockedSnapshotFixture, by decide, by decide⟩)

/-! ## Runner-side `ManagedRunController` phase machine (packages/cli-v3) -/

/-- The runner's `attemptNumber` is `number | null | undefined`; JavaScript
strict inequality distinguishes `null` from `undefined`. -/
inductive AttemptNumber where
  | undef
  | null
  | num (n : Int)
deriving DecidableEq, Repr

structure RunRef where
  friendlyId : String
  attemptNumber : AttemptNumber
deriving DecidableEq, Repr

structure SnapshotRef where
  friendlyId : String
deriving DecidableEq, Repr

inductive RunnerPhase where
  | IDLE
  | WARM_START
  | RUN (run : RunRef) (snapshot : SnapshotRef)
deriving DecidableEq, Repr

structure ControllerState where
  phase : RunnerPhase
  handleSnapshotChangeLock : Bool
deriving DecidableEq, Repr

/-- The runner-side execution statuses: the `assertExhaustive` default arm of
`handleSnapshotChange` covers exactly these eight members. -/
inductive RunnerExecutionStatus where
  | RUN_CREATED
  | QUEUED
  | EXECUTING
  | EXECUTING_WITH_WAITPOINTS
  | SUSPENDED
  | PENDING_CANCEL
  | PENDING_EXECUTING
  | FINISHED
deriving DecidableEq, Repr

/-- The `run`/`snapshot`/`completedWaitpoints` triple `handleSnapshotChange`
receives (only the count of completed waitpoints is consulted by the phase
logic). -/
structure SnapshotUpdate where
  run : RunRef
  snapshot : SnapshotRef
  executionStatus : RunnerExecutionStatus
  completedWaitpointCount : Nat
deriving DecidableEq, Repr

/-- `ManagedRunController.updateRunPhase`: in order — phase must be RUN,
run ids must match, an unchanged snapshot id returns without touching state
(before any attempt-number comparison), a changed attempt number throws, else
the held run/snapshot are replaced. -/
def updateRunPhase (st : ControllerState) (run : RunRef) (snapshot : SnapshotRef) :
    Except String RunnerPhase :=
  match st.phase with
  | RunnerPhase.IDLE => Except.error "Invalid phase for updating snapshot"
  | RunnerPhase.WARM_START => Except.error "Invalid phase for updating snapshot"
  | RunnerPhase.RUN curRun curSnap =>
    if curRun.friendlyId != run.friendlyId then
      Except.error "Mismatched run IDs"
    else if curSnap.friendlyId == snapshot.friendlyId then
      Except.ok (RunnerPhase.RUN curRun curSnap)
    else if curRun.attemptNumber != run.attemptNumber then
      Except.error "Attempt number changed"
    else
      Except.ok (RunnerPhase.RUN ⟨run.friendlyId, run.attemptNumber⟩
        ⟨snapshot.friendlyId⟩)

/-- How a snapshot-change notification was handled by the phase logic. -/
inductive SnapshotChangeOutcome where
  | lockBusy
  | missingSnapshotId
  | noChange
  | wentToWarmStart
  | applied (status : RunnerExecutionStatus)
deriving DecidableEq, Repr

/-- The phase-update portion of `ManagedRunController.handleSnapshotChange`:
reentrant calls are dropped (local mutex), a missing held snapshot or an
unchanged snapshot id short-circuits, and an `updateRunPhase` failure calls
`waitForNextRun`, modelled up to its `enterWarmStartPhase` transition (the
rest is process teardown and network long-polling).  On success the switch
dispatches on the new execution status, recorded in the outcome.  The lock is
released on every path (`finally`). -/
def handleSnapshotChange (st : ControllerState) (upd : SnapshotUpdate) :
    ControllerState × SnapshotChangeOutcome :=
  if st.handleSnapshotChangeLock then
    (st, SnapshotChangeOutcome.lockBusy)
  else
    match st.phase with
    | RunnerPhase.IDLE => (st, SnapshotChangeOutcome.missingSnapshotId)
    | RunnerPhase.WARM_START => (st, SnapshotChangeOutcome.missingSnapshotId)
    | RunnerPhase.RUN _ curSnap =>
      if curSnap.friendlyId == upd.snapshot.friendlyId then
        (st, SnapshotChangeOutcome.noChange)
      else
        match updateRunPhase st upd.run upd.snapshot with
        | Except.error _ =>
            ({ st with phase := RunnerPhase.WARM_START },
             SnapshotChangeOutcome.wentToWarmStart)
        | Except.ok newPhase =>
            ({ st with phase := newPhase },
             SnapshotChangeOutcome.applied upd.executionStatus)

/-- C7: when a snapshot update for the held run arrives with a changed
snapshot id but a different attempt number than the runner holds, the runner
does not apply the update: `updateRunPhase` throws, the attempt is abandoned
and the controller transitions to the warm-start phase. -/
theorem claim_C7_attemptNumberMismatch (st : ControllerState) (upd : SnapshotUpdate)
    (curRun : RunRef) (curSnap : SnapshotRef)
    (hphase : st.phase = RunnerPhase.RUN curRun curSnap)
    (hlock : st.handleSnapshotChangeLock = false)
    (hrun : upd.run.friendlyId = curRun.friendlyId)
    (hsnap : upd.snapshot.friendlyId ≠ curSnap.friendlyId)
    (hatt : upd.run.attemptNumber ≠ curRun.attemptNumber) :
    handleSnapshotChange st upd =
      ({ st with phase := RunnerPhase.WARM_START },
       SnapshotChangeOutcome.wentToWarmStart) := by
  obtain ⟨phase, lock⟩ := st
  simp only at hphase hlock
  subst hphase
  subst hlock
  have hs : ¬ curSnap.friendlyId = upd.snapshot.friendlyId :=
    fun hEq => hsnap hEq.symm
  have ha : ¬ curRun.attemptNumber = upd.run.attemptNumber :=
    fun hEq => hatt hEq.symm
  simp [handleSnapshotChange, updateRunPhase, hrun, hs, ha]

/-- Witness for C7: held attempt 1, platform reports attempt 2 on a new
snapshot — the controller lands in WARM_START. -/
theorem claim_C7_attemptNumberMismatch_witness :
    handleSnapshotChange
        { phase := RunnerPhase.RUN ⟨"run-1", AttemptNumber.num 1⟩ ⟨"snap-1"⟩,
          handleSnapshotChangeLock := false }
        { run := ⟨"run-1", AttemptNumber.num 2⟩, snapshot := ⟨"snap-2"⟩,
          executionStatus := RunnerExecutionStatus.EXECUTING,
          completedWaitpointCount := 0 } =
      ({ phase := RunnerPhase.WARM_START, handleSnapshotChangeLock := false },
       SnapshotChangeOutcome.wentToWarmStart) :=
  claim_C7_attemptNumberMismatch
    { phase := RunnerPhase.RUN ⟨"run-1", AttemptNumber.num 1⟩ ⟨"snap-1"⟩,
      handleSnapshotChangeLock := false }
    { run := ⟨"run-1", AttemptNumber.num 2⟩, snapshot := ⟨"snap-2"⟩,
      executionStatus := RunnerExecutionStatus.EXECUTING,
      completedWaitpointCount := 0 }
    ⟨"run-1", AttemptNumber.num 1⟩ ⟨"snap-1"⟩
    rfl rfl rfl (by decide) (by decide)

/-- Witness for C1 (amended) at the concrete fixture call. -/
theorem claim_C1_triggerIdempotency_witness :
    ∃ r1 s1 r2 s2,
      trigger sampleParams initialState = (Except.ok r1, s1) ∧
      trigger sampleParams s1 = (Except.ok r2, s2) ∧
      r1.id ≠ r2.id ∧
      s1.runs.length = initialState.runs.length + 1 ∧
      s2.runs.length = initialState.runs.length + 2 ∧
      (s1.snapshots.filter
        (fun sn => sn.executionStatus == TaskRunExecutionStatus.RUN_CREATED)).length =
        (initialState.snapshots.filter
          (fun sn => sn.executionStatus == TaskRunExecutionStatus.RUN_CREATED)).length
          + 1 ∧
      (s2.snapshots.filter
        (fun sn => sn.executionStatus == TaskRunExecutionStatus.RUN_CREATED)).length =
        (initialState.snapshots.filter
          (fun sn => sn.executionStatus == TaskRunExecutionStatus.RUN_CREATED)).length
          + 2 :=
  claim_C1_triggerIdempotency initialState sampleParams rfl rfl rfl

end TriggerDev
